import Mathlib

/-!
Verification development for the rstudio-launcher-plugin-sdk core:
the message protocol layer (`src/sdk/src/api/Response.cpp`, `Request` as
specified) and the supervised process execution engine
(`src/sdk/src/system/Process.cpp`).

Each C++ function relevant to the checked properties is shallowly embedded
as an executable Lean definition; stateful code (the global response-id
counter, the traced system calls of a synchronous run) is embedded by
explicit state passing.  Machine integers are modelled as `Nat`/`Int` with
explicit reduction modulo `2 ^ w` where the width matters.
-/

namespace RSdk

/-! ## Response identifier counter (`api/Response.cpp`)

`Response::Impl::Impl(Type, uint64_t)` sets
`ResponseId = ((type == HEARTBEAT) || (type == ERROR)) ? 0 : NEXT_RESPONSE_ID.fetch_add(1)`
where `NEXT_RESPONSE_ID` is a `std::atomic_uint64_t` initialised to `0`.
`fetch_add` returns the pre-increment value and the stored value wraps at
`2 ^ 64`.  We embed the constructor as a function from the current counter
value to the constructed impl record and the new counter value. -/

/-- The response types that appear in `Response.cpp`
(`Response::Type` members used by the source file). -/
inductive RespType where
  | bootstrap
  | error
  | heartbeat
  | clusterInfo
deriving DecidableEq, Repr

/-- Embeds `(in_responseType == Type::HEARTBEAT) || (in_responseType == Type::ERROR)`. -/
def isOutOfBand (t : RespType) : Bool :=
  (t == RespType.heartbeat) || (t == RespType.error)

/-- Modulus of a `uint64_t` value. -/
def UINT64_MOD : Nat := 2 ^ 64

/-- The fields of `Response::Impl` relevant to identifier assignment. -/
structure RespImpl where
  responseType : RespType
  requestId : Nat
  responseId : Nat
deriving DecidableEq, Repr

/-- Embeds `Response::Impl::Impl(Type in_responseType, uint64_t in_requestId)`:
given the current value `c` of `NEXT_RESPONSE_ID`, produce the constructed
impl record and the counter value after construction.  HEARTBEAT and ERROR
responses take `ResponseId = 0` and do not touch the counter; every other
type draws `fetch_add(1)`, which yields the pre-increment value and stores
the incremented value modulo `2 ^ 64`. -/
def mkResponseImpl (t : RespType) (reqId : Nat) (c : Nat) : RespImpl × Nat :=
  if isOutOfBand t then
    ({ responseType := t, requestId := reqId, responseId := 0 }, c)
  else
    ({ responseType := t, requestId := reqId, responseId := c }, (c + 1) % UINT64_MOD)

/-- Embeds `std::atomic_uint64_t Response::Impl::NEXT_RESPONSE_ID` initialised to 0. -/
def initialResponseCounter : Nat := 0

/-- Construct a sequence of responses (all with request id 0, which is
irrelevant to identifier assignment), threading the shared counter;
returns the constructed impl records in order and the final counter. -/
def runCtors (l : List RespType) (c : Nat) : List RespImpl × Nat :=
  match l with
  | [] => ([], c)
  | t :: rest =>
    let (r, c') := mkResponseImpl t 0 c
    let (rs, cF) := runCtors rest c'
    (r :: rs, cF)

/-- The response ids handed to the substantive (neither HEARTBEAT nor
ERROR) responses of a construction sequence, in construction order. -/
def substantiveIds (l : List RespType) (c : Nat) : List Nat :=
  (((runCtors l c).1).filter (fun r => !isOutOfBand r.responseType)).map
    (fun r => r.responseId)

/-- Number of substantive constructions in a sequence. -/
def substantiveCount (l : List RespType) : Nat :=
  (l.filter (fun t => !isOutOfBand t)).length

theorem runCtors_outOfBand_counter (l : List RespType) (c : Nat) :
    (runCtors (l.filter isOutOfBand) c).2 = c := by
  induction l generalizing c with
  | nil => simp [runCtors]
  | cons t rest ih =>
    by_cases h : isOutOfBand t
    · simp only [List.filter_cons, h, if_pos, runCtors, mkResponseImpl, h]
      simp [h, ih]
    · simp only [List.filter_cons]
      simp [h, ih]

theorem substantiveIds_cons (t : RespType) (rest : List RespType) (c : Nat) :
    substantiveIds (t :: rest) c =
      if isOutOfBand t then substantiveIds rest c
      else c :: substantiveIds rest ((c + 1) % UINT64_MOD) := by
  by_cases h : isOutOfBand t <;>
    simp [substantiveIds, runCtors, mkResponseImpl, h]

theorem substantiveIds_of_count_zero (l : List RespType) (c : Nat)
    (h0 : substantiveCount l = 0) : substantiveIds l c = [] := by
  induction l generalizing c with
  | nil => simp [substantiveIds, runCtors]
  | cons t rest ih =>
    by_cases h : isOutOfBand t
    · have : substantiveCount rest = 0 := by
        simpa [substantiveCount, h] using h0
      rw [substantiveIds_cons, if_pos h]
      exact ih c this
    · exfalso
      simp [substantiveCount, h] at h0

theorem substantiveIds_no_wrap (l : List RespType) (c : Nat)
    (hc : c + substantiveCount l ≤ UINT64_MOD) :
    substantiveIds l c = List.range' c (substantiveCount l) := by
  induction l generalizing c with
  | nil => simp [substantiveIds, runCtors, substantiveCount]
  | cons t rest ih =>
    by_cases h : isOutOfBand t
    · have hcnt : substantiveCount (t :: rest) = substantiveCount rest := by
        simp [substantiveCount, h]
      rw [hcnt] at hc ⊢
      rw [substantiveIds_cons, if_pos h]
      exact ih c hc
    · have hcnt : substantiveCount (t :: rest) = substantiveCount rest + 1 := by
        simp [substantiveCount, h]
      rw [hcnt] at hc ⊢
      rw [substantiveIds_cons, if_neg h, List.range'_succ]
      rcases Nat.lt_or_ge (c + 1) UINT64_MOD with hlt | hge

      · rw [Nat.mod_eq_of_lt hlt]
        rw [ih (c + 1) (by omega)]
      · have hcnt0 : substantiveCount rest = 0 := by omega
        rw [hcnt0, substantiveIds_of_count_zero rest _ hcnt0]
        simp

/-- Claim C1: a Response constructed with type HEARTBEAT or ERROR has
`ResponseId = 0` and leaves the process-wide counter unchanged; a Response
of any other type (BOOTSTRAP, CLUSTER_INFO) draws its id from the shared
counter; and constructing any number of HEARTBEAT/ERROR responses between
two substantive responses leaves the second substantive response's
`ResponseId` the same as if none had been constructed. -/
theorem claim_C1_out_of_band_response_ids (c reqId : Nat) (l : List RespType) :
    (mkResponseImpl RespType.heartbeat reqId c).1.responseId = 0 ∧
    (mkResponseImpl RespType.error reqId c).1.responseId = 0 ∧
    (mkResponseImpl RespType.heartbeat reqId c).2 = c ∧
    (mkResponseImpl RespType.error reqId c).2 = c ∧
    (mkResponseImpl RespType.bootstrap reqId c).1.responseId = c ∧
    (mkResponseImpl RespType.clusterInfo reqId c).1.responseId = c ∧
    (runCtors (l.filter isOutOfBand) c).2 = c ∧
    (mkResponseImpl RespType.clusterInfo reqId
        ((runCtors (l.filter isOutOfBand) c).2)).1.responseId =
      (mkResponseImpl RespType.clusterInfo reqId c).1.responseId := by
  refine ⟨?_, ?_, ?_, ?_, ?_, ?_, ?_, ?_⟩ <;>
    simp [mkResponseImpl, isOutOfBand, runCtors_outOfBand_counter]

/-- Claim C2: starting from the initial counter, the substantive (neither
HEARTBEAT nor ERROR) responses of any construction sequence receive the
response ids `0, 1, 2, …` in construction order — in particular
consecutive substantive ids strictly increase and any `N` substantive
responses receive `N` pairwise-distinct ids.  Stated for sequences of at
most `2 ^ 64` substantive constructions, below the wrap-around of the
`uint64_t` counter. -/
theorem claim_C2_substantive_ids_strictly_increasing (l : List RespType)
    (hc : substantiveCount l ≤ UINT64_MOD) :
    substantiveIds l initialResponseCounter = List.range (substantiveCount l) ∧
    (substantiveIds l initialResponseCounter).Pairwise (· < ·) := by
  have h := substantiveIds_no_wrap l 0 (by simpa using hc)
  have hr : substantiveIds l initialResponseCounter =
      List.range (substantiveCount l) := by
    rw [initialResponseCounter, h, List.range_eq_range']
  exact ⟨hr, by rw [hr]; exact List.pairwise_lt_range _⟩

theorem claim_C2_witness :
    substantiveCount
        [RespType.clusterInfo, RespType.heartbeat, RespType.bootstrap] ≤
      UINT64_MOD ∧
    (substantiveIds [RespType.clusterInfo, RespType.heartbeat, RespType.bootstrap]
        initialResponseCounter =
      List.range
        (substantiveCount
          [RespType.clusterInfo, RespType.heartbeat, RespType.bootstrap]) ∧
    (substantiveIds [RespType.clusterInfo, RespType.heartbeat, RespType.bootstrap]
        initialResponseCounter).Pairwise (· < ·)) :=
  ⟨by decide,
   claim_C2_substantive_ids_strictly_increasing
     [RespType.clusterInfo, RespType.heartbeat, RespType.bootstrap] (by decide)⟩

/-- Claim C10: the first substantive response constructed in a process
receives `ResponseId = 0` (the counter is initialised to `0` and
`fetch_add` returns the pre-increment value) — the same value every
HEARTBEAT and ERROR response carries, so `ResponseId = 0` does not
uniquely identify out-of-band responses. -/
theorem claim_C10_first_substantive_id_is_zero :
    (mkResponseImpl RespType.clusterInfo 1 initialResponseCounter).1.responseId = 0 ∧
    (mkResponseImpl RespType.bootstrap 1 initialResponseCounter).1.responseId = 0 ∧
    (mkResponseImpl RespType.heartbeat 1 initialResponseCounter).1.responseId = 0 ∧
    (mkResponseImpl RespType.error 1 initialResponseCounter).1.responseId = 0 := by
  decide

/-! ## JSON encoding of responses (`api/Response.cpp`)

A light model of `json::Object`/`json::Value`: an object is an ordered
association list of fields.  `json::Object::operator[]` assigns the value
of an existing key or appends a fresh key; `insert` behaves the same way
on the fresh keys used here.  The serialised forms of `JobConfig`,
`ResourceLimit` and `PlacementConstraint` elements are opaque to
`Response.cpp` (their `toJson` lives elsewhere), so array elements are
modelled as arbitrary `JVal` values. -/

/-- JSON values, as deep as `Response.cpp` needs them. -/
inductive JVal where
  | b (v : Bool)
  | s (v : String)
  | n (v : Nat)
  | arr (elems : List JVal)

/-- A `json::Object`: ordered field list. -/
abbrev JObj : Type := List (String × JVal)

/-- Embeds `json::Object::operator[]` / `insert` on object `o`: overwrite the
value of key `k` when present, otherwise append the field at the end. -/
def objSet (o : JObj) (k : String) (v : JVal) : JObj :=
  if o.any (fun p => p.1 == k) then
    o.map (fun p => if p.1 == k then (k, v) else p)
  else o ++ [(k, v)]

/-- Whether the object emits field `k`. -/
def hasField (o : JObj) (k : String) : Bool :=
  o.any (fun p => p.1 == k)

/-- Modelled from the spec: the numeric codes of `Response::Type` are
declared in `Response.hpp`, which is not among the analysed sources; the
field-presence properties checked here do not depend on the codes, so the
constructors are numbered in declaration order of `RespType`. -/
def responseTypeCode (t : RespType) : Nat :=
  match t with
  | RespType.bootstrap => 0
  | RespType.error => 1
  | RespType.heartbeat => 2
  | RespType.clusterInfo => 3

/-- Embeds `Response::toJson`: emit `messageType`, `requestId`, `responseId`. -/
def responseToJson (r : RespImpl) : JObj :=
  objSet
    (objSet
      (objSet [] "messageType" (JVal.n (responseTypeCode r.responseType)))
      "requestId" (JVal.n r.requestId))
    "responseId" (JVal.n r.responseId)

/-- The fields of `ClusterInfoResponse::Impl`. -/
structure ClusterInfoImpl where
  AllowUnknownImages : Bool
  Config : List JVal
  ContainerImages : List String
  DefaultImage : String
  PlacementConstraints : List JVal
  Queues : List String
  ResourceLimits : List JVal
  SupportsContainers : Bool

/-- The container-unaware `ClusterInfoResponse::Impl` constructor:
`SupportsContainers = false`, `AllowUnknownImages = false`, no images and
an empty default image. -/
def mkClusterInfoImpl (queues : List String)
    (resourceLimits placementConstraints config : List JVal) : ClusterInfoImpl :=
  { AllowUnknownImages := false
    Config := config
    ContainerImages := []
    DefaultImage := ""
    PlacementConstraints := placementConstraints
    Queues := queues
    ResourceLimits := resourceLimits
    SupportsContainers := false }

/-- The container-aware `ClusterInfoResponse::Impl` constructor:
`SupportsContainers = true` with the given images, default image and
unknown-image policy. -/
def mkClusterInfoImplContainers (containerImages : List String)
    (defaultImage : String) (allowUnknownImages : Bool) (queues : List String)
    (resourceLimits placementConstraints config : List JVal) : ClusterInfoImpl :=
  { AllowUnknownImages := allowUnknownImages
    Config := config
    ContainerImages := containerImages
    DefaultImage := defaultImage
    PlacementConstraints := placementConstraints
    Queues := queues
    ResourceLimits := resourceLimits
    SupportsContainers := true }

/-- Embeds `ClusterInfoResponse::toJson`: the base object, then
`containerSupport` always; under container support `defaultImage` (only
when non-empty), `allowUnknownImages` and `images`; `queues` only when
non-empty; then the `config`, `resourceLimits` and
`placementConstraints` arrays always. -/
def clusterInfoToJson (r : RespImpl) (impl : ClusterInfoImpl) : JObj :=
  let result := responseToJson r
  let result := objSet result "containerSupport" (JVal.b impl.SupportsContainers)
  let result :=
    if impl.SupportsContainers then
      let result :=
        if impl.DefaultImage ≠ "" then
          objSet result "defaultImage" (JVal.s impl.DefaultImage)
        else result
      let result := objSet result "allowUnknownImages" (JVal.b impl.AllowUnknownImages)
      objSet result "images" (JVal.arr (impl.ContainerImages.map JVal.s))
    else result
  let result :=
    if impl.Queues ≠ [] then
      objSet result "queues" (JVal.arr (impl.Queues.map JVal.s))
    else result
  let result := objSet result "config" (JVal.arr impl.Config)
  let result := objSet result "resourceLimits" (JVal.arr impl.ResourceLimits)
  objSet result "placementConstraints" (JVal.arr impl.PlacementConstraints)

theorem responseToJson_shape (r : RespImpl) :
    responseToJson r =
      [("messageType", JVal.n (responseTypeCode r.responseType)),
       ("requestId", JVal.n r.requestId),
       ("responseId", JVal.n r.responseId)] := by
  simp [responseToJson, objSet]

theorem clusterInfoToJson_aware_shape (r : RespImpl) (images : List String)
    (defaultImage : String) (allowUnknown : Bool) (queues : List String)
    (limits constraints config : List JVal) :
    clusterInfoToJson r
        (mkClusterInfoImplContainers images defaultImage allowUnknown queues
          limits constraints config) =
      [("messageType", JVal.n (responseTypeCode r.responseType)),
       ("requestId", JVal.n r.requestId),
       ("responseId", JVal.n r.responseId),
       ("containerSupport", JVal.b true)] ++
      (if defaultImage = "" then []
        else [("defaultImage", JVal.s defaultImage)]) ++
      [("allowUnknownImages", JVal.b allowUnknown),
       ("images", JVal.arr (images.map JVal.s))] ++
      (if queues = [] then [] else [("queues", JVal.arr (queues.map JVal.s))]) ++
      [("config", JVal.arr config),
       ("resourceLimits", JVal.arr limits),
       ("placementConstraints", JVal.arr constraints)] := by
  by_cases hd : defaultImage = "" <;> by_cases hq : queues = [] <;>
    simp [clusterInfoToJson, mkClusterInfoImplContainers, responseToJson,
      objSet, hd, hq]

theorem clusterInfoToJson_unaware_shape (r : RespImpl) (queues : List String)
    (limits constraints config : List JVal) :
    clusterInfoToJson r (mkClusterInfoImpl queues limits constraints config) =
      [("messageType", JVal.n (responseTypeCode r.responseType)),
       ("requestId", JVal.n r.requestId),
       ("responseId", JVal.n r.responseId),
       ("containerSupport", JVal.b false)] ++
      (if queues = [] then [] else [("queues", JVal.arr (queues.map JVal.s))]) ++
      [("config", JVal.arr config),
       ("resourceLimits", JVal.arr limits),
       ("placementConstraints", JVal.arr constraints)] := by
  by_cases hq : queues = [] <;>
    simp [clusterInfoToJson, mkClusterInfoImpl, responseToJson, objSet, hq]

/-- Claim C6: `ClusterInfoResponse::toJson` always emits the
container-support boolean and the `config`, `resourceLimits` and
`placementConstraints` arrays (even when empty); when constructed
container-aware it always emits `allowUnknownImages` and `images` and
emits `defaultImage` exactly when the default image is non-empty; when
constructed container-unaware it never emits `allowUnknownImages`,
`images` or `defaultImage`; and it emits `queues` exactly when the queue
list is non-empty. -/
theorem claim_C6_cluster_info_field_emission (reqId c : Nat)
    (images : List String) (defaultImage : String) (allowUnknown : Bool)
    (queues : List String) (limits constraints config : List JVal) :
    hasField (clusterInfoToJson (mkResponseImpl RespType.clusterInfo reqId c).1
        (mkClusterInfoImplContainers images defaultImage allowUnknown queues
          limits constraints config)) "containerSupport" = true ∧
    hasField (clusterInfoToJson (mkResponseImpl RespType.clusterInfo reqId c).1
        (mkClusterInfoImpl queues limits constraints config))
      "containerSupport" = true ∧
    hasField (clusterInfoToJson (mkResponseImpl RespType.clusterInfo reqId c).1
        (mkClusterInfoImplContainers images defaultImage allowUnknown queues
          limits constraints config)) "config" = true ∧
    hasField (clusterInfoToJson (mkResponseImpl RespType.clusterInfo reqId c).1
        (mkClusterInfoImplContainers images defaultImage allowUnknown queues
          limits constraints config)) "resourceLimits" = true ∧
    hasField (clusterInfoToJson (mkResponseImpl RespType.clusterInfo reqId c).1
        (mkClusterInfoImplContainers images defaultImage allowUnknown queues
          limits constraints config)) "placementConstraints" = true ∧
    hasField (clusterInfoToJson (mkResponseImpl RespType.clusterInfo reqId c).1
        (mkClusterInfoImpl queues limits constraints config)) "config" = true ∧
    hasField (clusterInfoToJson (mkResponseImpl RespType.clusterInfo reqId c).1
        (mkClusterInfoImpl queues limits constraints config))
      "resourceLimits" = true ∧
    hasField (clusterInfoToJson (mkResponseImpl RespType.clusterInfo reqId c).1
        (mkClusterInfoImpl queues limits constraints config))
      "placementConstraints" = true ∧
    hasField (clusterInfoToJson (mkResponseImpl RespType.clusterInfo reqId c).1
        (mkClusterInfoImplContainers images defaultImage allowUnknown queues
          limits constraints config)) "allowUnknownImages" = true ∧
    hasField (clusterInfoToJson (mkResponseImpl RespType.clusterInfo reqId c).1
        (mkClusterInfoImplContainers images defaultImage allowUnknown queues
          limits constraints config)) "images" = true ∧
    (hasField (clusterInfoToJson (mkResponseImpl RespType.clusterInfo reqId c).1
        (mkClusterInfoImplContainers images defaultImage allowUnknown queues
          limits constraints config)) "defaultImage" = true ↔ defaultImage ≠ "") ∧
    hasField (clusterInfoToJson (mkResponseImpl RespType.clusterInfo reqId c).1
        (mkClusterInfoImpl queues limits constraints config))
      "allowUnknownImages" = false ∧
    hasField (clusterInfoToJson (mkResponseImpl RespType.clusterInfo reqId c).1
        (mkClusterInfoImpl queues limits constraints config)) "images" = false ∧
    hasField (clusterInfoToJson (mkResponseImpl RespType.clusterInfo reqId c).1
        (mkClusterInfoImpl queues limits constraints config))
      "defaultImage" = false ∧
    (hasField (clusterInfoToJson (mkResponseImpl RespType.clusterInfo reqId c).1
        (mkClusterInfoImplContainers images defaultImage allowUnknown queues
          limits constraints config)) "queues" = true ↔ queues ≠ []) ∧
    (hasField (clusterInfoToJson (mkResponseImpl RespType.clusterInfo reqId c).1
        (mkClusterInfoImpl queues limits constraints config)) "queues" = true ↔
      queues ≠ []) := by
  rw [clusterInfoToJson_aware_shape, clusterInfoToJson_unaware_shape]
  by_cases hd : defaultImage = "" <;> by_cases hq : queues = [] <;>
    refine ⟨?_, ?_, ?_, ?_, ?_, ?_, ?_, ?_, ?_, ?_, ?_, ?_, ?_, ?_, ?_, ?_⟩ <;>
    simp [hasField, hd, hq]

/-! ## Descriptor hygiene in the forked child (`system/Process.cpp`)

`closeParentFds(int in_pipeFd, rlim_t in_maxFd)` reads 4-byte descriptor
numbers off the control pipe and closes them, stopping at the sentinel
`-1`; a failed read (errno outside EINTR/EAGAIN) sets `error`.  If the
read errored or delivered no descriptor values, a brute-force sweep closes
every descriptor in `[STDERR_FILENO + 1, maxFd)` other than the pipe,
where `uint32_t maxFd = (in_maxFd == RLIM_INFINITY) ? 1024 : in_maxFd`.
`AbstractChildProcess::run` obtains `(softLimit, hardLimit)` from
`getFilesLimit` and passes `hardLimit` as `in_maxFd`. -/

/-- An `rlim_t` resource-limit value: finite or `RLIM_INFINITY`. -/
inductive RLim where
  | val (n : Nat)
  | infinity
deriving DecidableEq, Repr

/-- Embeds `fd < in_maxFd` with `in_maxFd : rlim_t` (`RLIM_INFINITY` is the
all-ones value, above every descriptor number). -/
def fdLtRLim (fd : Nat) (m : RLim) : Prop :=
  match m with
  | RLim.val n => fd < n
  | RLim.infinity => True

instance (fd : Nat) (m : RLim) : Decidable (fdLtRLim fd m) := by
  cases m <;> simp only [fdLtRLim] <;> infer_instance

/-- Embeds `static const uint32_t startFd = STDERR_FILENO + 1;`. -/
def startFd : Nat := 3

/-- Embeds `static_cast<uint32_t>` of an `int32_t` value. -/
def u32ofI32 (v : Int) : Nat := (v % (2 ^ 32 : Int)).toNat

/-- Embeds `uint32_t maxFd = (in_maxFd == RLIM_INFINITY) ? 1024 : in_maxFd;` —
the conversion to `uint32_t` truncates a finite limit modulo `2 ^ 32`. -/
def u32ofRLim (m : RLim) : Nat :=
  match m with
  | RLim.infinity => 1024
  | RLim.val n => n % 2 ^ 32

/-- One observed outcome of `::read` on the control pipe: a 4-byte value,
or a failure with errno outside EINTR/EAGAIN (EINTR/EAGAIN outcomes only
retry and are invisible in the loop's result). -/
inductive ReadEv where
  | value (v : Int)
  | fail
deriving DecidableEq, Repr

/-- The read loop of `closeParentFds`: process control-pipe read outcomes
in order, returning the descriptors closed on the fast path, the `error`
flag and the `fdsRead` flag.  `none` when the outcome list is exhausted
without a sentinel or failure (the C++ loop would stay blocked in
`::read`). -/
def readLoopGo (evs : List ReadEv) (pipeFd : Nat) (inMaxFd : RLim)
    (fdsRead : Bool) : Option (List Nat × Bool × Bool) :=
  match evs with
  | [] => none
  | ReadEv.fail :: _ => some ([], true, fdsRead)
  | ReadEv.value v :: rest =>
    if v = -1 then some ([], false, fdsRead)
    else
      let fd := u32ofI32 v
      let closedHere :=
        if startFd ≤ fd ∧ fdLtRLim fd inMaxFd ∧ v ≠ (pipeFd : Int) then [fd]
        else []
      match readLoopGo rest pipeFd inMaxFd true with
      | none => none
      | some (cl, err, fr) => some (closedHere ++ cl, err, fr)

/-- The brute-force fallback sweep of `closeParentFds`: close every
descriptor `fd` with `startFd ≤ fd < maxFd` other than the pipe. -/
def fallbackSweep (pipeFd : Nat) (inMaxFd : RLim) : List Nat :=
  (List.range (u32ofRLim inMaxFd)).filter
    (fun fd => decide (startFd ≤ fd ∧ fd ≠ pipeFd))

/-- Embeds `closeParentFds`: the descriptors the child closes, given the
control-pipe read outcomes; the fallback sweep runs when the read loop
errored or read no descriptor values. -/
def closeParentFds (evs : List ReadEv) (pipeFd : Nat) (inMaxFd : RLim) :
    Option (List Nat) :=
  match readLoopGo evs pipeFd inMaxFd false with
  | none => none
  | some (closedFast, error, fdsRead) =>
    if error || !fdsRead then some (closedFast ++ fallbackSweep pipeFd inMaxFd)
    else some closedFast

/-- The wiring of `AbstractChildProcess::run`/`execChild`: `run` queries
`getFilesLimit(softLimit, hardLimit)` and hands `hardLimit` to the child,
so `closeParentFds` receives the hard limit as `in_maxFd`; the soft limit
is unused. -/
def runChildCloseParentFds (softLimit hardLimit : RLim) (pipeFd : Nat)
    (evs : List ReadEv) : Option (List Nat) :=
  closeParentFds evs pipeFd hardLimit

/-- The fallback sweep as the claim words it (refinement comparison
definition, following the spec text, not the source): every descriptor
from the first user descriptor (3) up to the process's file-descriptor
soft limit — or up to 1024 when the soft limit is unbounded — skipping
the control pipe's descriptor. -/
def specFallbackSweep (softLimit : RLim) (pipeFd : Nat) : List Nat :=
  (List.range
      (match softLimit with
        | RLim.infinity => 1024
        | RLim.val n => n)).filter
    (fun fd => decide (3 ≤ fd ∧ fd ≠ pipeFd))

/-- Claim C3 counterexample: with soft limit 100, hard limit 200, control
pipe descriptor 4 and a failing control-pipe read, the child's sweep is
not the claimed soft-limit-bounded sweep — it closes descriptor 150,
which lies beyond the soft limit, because `run` passes the hard limit. -/
theorem claim_C3_counterexample :
    runChildCloseParentFds (RLim.val 100) (RLim.val 200) 4 [ReadEv.fail] ≠
      some (specFallbackSweep (RLim.val 100) 4) ∧
    150 ∈ (runChildCloseParentFds (RLim.val 100) (RLim.val 200) 4
      [ReadEv.fail]).getD [] ∧
    150 ∉ specFallbackSweep (RLim.val 100) 4 := by
  decide

/-- Claim C3 (amended): in the descriptor-hygiene fallback path (taken
when the control-pipe read fails or yields no descriptor values), the
child closes — besides any descriptors received before the failure —
exactly the descriptors from the first user descriptor (3) up to the
process's file-descriptor **hard** limit as a 32-bit value (or up to the
fixed ceiling 1024 when the hard limit is RLIM_INFINITY), skipping the
control pipe's own descriptor; the soft limit plays no role. -/
theorem claim_C3_fallback_sweep_bound (softLimit hardLimit : RLim)
    (pipeFd : Nat) (evs : List ReadEv) (fast : List Nat) (err fr : Bool)
    (hread : readLoopGo evs pipeFd hardLimit false = some (fast, err, fr))
    (hfb : err = true ∨ fr = false) :
    runChildCloseParentFds softLimit hardLimit pipeFd evs =
      some (fast ++ fallbackSweep pipeFd hardLimit) ∧
    ∀ fd, fd ∈ fallbackSweep pipeFd hardLimit ↔
      (startFd ≤ fd ∧ fd < u32ofRLim hardLimit ∧ fd ≠ pipeFd) := by
  constructor
  · unfold runChildCloseParentFds closeParentFds
    rw [hread]
    rcases hfb with h | h <;> subst h <;> simp
  · intro fd
    simp [fallbackSweep, List.mem_filter, List.mem_range]
    tauto

theorem claim_C3_fallback_sweep_bound_witness :
    readLoopGo [ReadEv.fail] 4 (RLim.val 200) false = some ([], true, false) ∧
    runChildCloseParentFds (RLim.val 100) (RLim.val 200) 4 [ReadEv.fail] =
      some ([] ++ fallbackSweep 4 (RLim.val 200)) ∧
    (150 ∈ fallbackSweep 4 (RLim.val 200) ↔
      (startFd ≤ 150 ∧ 150 < u32ofRLim (RLim.val 200) ∧ 150 ≠ 4)) :=
  ⟨by decide,
   (claim_C3_fallback_sweep_bound (RLim.val 100) (RLim.val 200) 4
     [ReadEv.fail] [] true false (by decide) (Or.inl rfl)).1,
   (claim_C3_fallback_sweep_bound (RLim.val 100) (RLim.val 200) 4
     [ReadEv.fail] [] true false (by decide) (Or.inl rfl)).2 150⟩

/-! ## Synchronous execution (`SyncChildProcess::run`)

`SyncChildProcess::run(ProcessResult&)` launches the child, writes the
standard-input payload (if any) to the input pipe, and on a write failure
calls `terminate()` (logging a failed terminate).  Both pipe drains are
guarded by `if (!error)`; `::waitpid` runs unconditionally afterwards and
fills the exit code.  We embed the method as a function of an environment
describing the outcome of each external call, producing the trace of
calls made, the filled `ProcessResult` and the returned error. -/

/-- External calls made by `SyncChildProcess::run`, in order. -/
inductive SyncEv where
  | writeStdIn
  | terminateChild
  | readStdOut
  | readStdErr
  | waitChild
deriving DecidableEq, Repr

/-- Decoded `waitpid` outcome: normal exit with `WEXITSTATUS`, some other
raw status, or failure with an errno. -/
inductive WaitOutcome where
  | exited (code : Int)
  | rawStatus (status : Int)
  | failed (errno : Nat)
deriving DecidableEq, Repr

/-- Outcomes of the external calls a synchronous run performs. -/
structure SyncEnv where
  /-- The assembled `StandardInput` launch profile (written to the child). -/
  stdinPayload : String
  /-- Whether `writeToPipe` on the input pipe succeeds. -/
  writeOk : Bool
  /-- Whether the inner `terminate()` succeeds (its error is only logged). -/
  terminateOk : Bool
  /-- Data delivered by `readFromPipe` on the output pipe and its success. -/
  stdoutData : String
  readOutOk : Bool
  /-- Data delivered by `readFromPipe` on the error pipe and its success. -/
  stderrData : String
  readErrOk : Bool
  /-- The `waitpid` outcome. -/
  wait : WaitOutcome

/-- The captured result of a run (`ProcessResult`). -/
structure ProcessResult where
  StdOut : String
  StdError : String
  ExitCode : Int
deriving DecidableEq, Repr

/-- The `ECHILD` errno. -/
def ECHILD : Nat := 10

/-- Embeds `SyncChildProcess::run` after a successful
`AbstractChildProcess::run`: the trace of external calls, the filled
`ProcessResult` (fields start from their default values) and whether an
error is returned.  Mirrors the source: the input write happens only for
a non-empty payload, a write failure triggers `terminate()`, each drain is
guarded by `if (!error)`, and `waitpid` always runs; a `waitpid` failure
yields `ExitCode = -1` and is an error unless `ECHILD`. -/
def syncRun (env : SyncEnv) : List SyncEv × ProcessResult × Option Nat :=
  let trace : List SyncEv := []
  let res : ProcessResult := { StdOut := "", StdError := "", ExitCode := 0 }
  let (trace, errWrite) :=
    if env.stdinPayload ≠ "" then
      if env.writeOk then (trace ++ [SyncEv.writeStdIn], false)
      else (trace ++ [SyncEv.writeStdIn, SyncEv.terminateChild], true)
    else (trace, false)
  let (trace, res, errOut) :=
    if ¬errWrite then
      ((trace ++ [SyncEv.readStdOut], { res with StdOut := env.stdoutData },
        !env.readOutOk))
    else (trace, res, errWrite)
  let (trace, res, _errExisting) :=
    if ¬errOut then
      ((trace ++ [SyncEv.readStdErr], { res with StdError := env.stderrData },
        !env.readErrOk))
    else (trace, res, errOut)
  let trace := trace ++ [SyncEv.waitChild]
  match env.wait with
  | WaitOutcome.exited code => (trace, { res with ExitCode := code }, none)
  | WaitOutcome.rawStatus status => (trace, { res with ExitCode := status }, none)
  | WaitOutcome.failed errno =>
    if errno = ECHILD then (trace, { res with ExitCode := -1 }, none)
    else (trace, { res with ExitCode := -1 }, some errno)

/-- Claim C4 counterexample: in a run whose input write fails (payload
`"x"`, `writeOk = false`, child exits 0), the engine does **not** drain
the output and error pipes — no `readStdOut`/`readStdErr` call appears in
the trace — contradicting the claim that it "still drains the output and
error pipes". -/
theorem claim_C4_counterexample :
    (let env : SyncEnv :=
      { stdinPayload := "x", writeOk := false, terminateOk := true,
        stdoutData := "out", readOutOk := true, stderrData := "",
        readErrOk := true, wait := WaitOutcome.exited 0 }
     env.stdinPayload ≠ "" ∧ env.writeOk = false ∧
     SyncEv.readStdOut ∉ (syncRun env).1 ∧ SyncEv.readStdErr ∉ (syncRun env).1) := by
  decide

/-- Claim C4 (amended): in every synchronous run in which writing the
standard-input payload fails, the engine attempts to terminate the child,
**skips** draining the output and error pipes (their captured text stays
empty), still waits for the child to exit, and returns a populated
`ProcessResult` whose exit code reflects the `waitpid` outcome rather
than returning early and leaving the child unreaped. -/
theorem claim_C4_write_failure_still_reaps (env : SyncEnv)
    (hpay : env.stdinPayload ≠ "") (hw : env.writeOk = false) :
    SyncEv.terminateChild ∈ (syncRun env).1 ∧
    SyncEv.waitChild ∈ (syncRun env).1 ∧
    SyncEv.readStdOut ∉ (syncRun env).1 ∧
    SyncEv.readStdErr ∉ (syncRun env).1 ∧
    (syncRun env).1 = [SyncEv.writeStdIn, SyncEv.terminateChild, SyncEv.waitChild] ∧
    (syncRun env).2.1.StdOut = "" ∧
    (syncRun env).2.1.StdError = "" ∧
    (syncRun env).2.1.ExitCode =
      (match env.wait with
        | WaitOutcome.exited code => code
        | WaitOutcome.rawStatus status => status
        | WaitOutcome.failed _ => -1) := by
  cases hwait : env.wait <;>
    simp [syncRun, hpay, hw, hwait, ECHILD] <;>
    split <;> simp

theorem claim_C4_write_failure_still_reaps_witness :
    (let env : SyncEnv :=
      { stdinPayload := "x", writeOk := false, terminateOk := true,
        stdoutData := "out", readOutOk := true, stderrData := "e",
        readErrOk := true, wait := WaitOutcome.exited 7 }
     env.stdinPayload ≠ "" ∧ env.writeOk = false ∧
     (SyncEv.terminateChild ∈ (syncRun env).1 ∧
      SyncEv.waitChild ∈ (syncRun env).1 ∧
      SyncEv.readStdOut ∉ (syncRun env).1 ∧
      SyncEv.readStdErr ∉ (syncRun env).1 ∧
      (syncRun env).1 =
        [SyncEv.writeStdIn, SyncEv.terminateChild, SyncEv.waitChild] ∧
      (syncRun env).2.1.StdOut = "" ∧
      (syncRun env).2.1.StdError = "" ∧
      (syncRun env).2.1.ExitCode =
        (match env.wait with
          | WaitOutcome.exited code => code
          | WaitOutcome.rawStatus status => status
          | WaitOutcome.failed _ => -1))) :=
  ⟨by decide, rfl,
   claim_C4_write_failure_still_reaps _ (by decide) rfl⟩

/-! ## Termination (`AbstractChildProcess::terminate`)

`terminate()` returns an `ESRCH` system error when no child is running
(`Pid == -1`); otherwise it calls `::kill(-Pid, SIGTERM)` and treats
`EPERM` and `ESRCH` delivery failures as success, returning every other
failure as a system error. -/

/-- The `EPERM` errno. -/
def EPERM : Nat := 1

/-- The `ESRCH` errno. -/
def ESRCH : Nat := 3

/-- The `SIGTERM` signal number. -/
def SIGTERM : Nat := 15

/-- A `::kill` invocation: the pid argument and the signal sent. -/
structure KillCall where
  target : Int
  signal : Nat
deriving DecidableEq, Repr

/-- Embeds `AbstractChildProcess::terminate()`, as a function of the stored
child `Pid` and of the errno reported by `::kill` (`none` when `::kill`
succeeds).  Returns the `::kill` call performed, if any, and the errno
returned as an error (`none` for `Success`). -/
def terminateChildProcess (pid : Int) (killErrno : Option Nat) :
    Option KillCall × Option Nat :=
  if pid = -1 then (none, some ESRCH)
  else
    match killErrno with
    | none => (some { target := -pid, signal := SIGTERM }, none)
    | some e =>
      if e = EPERM ∨ e = ESRCH then
        (some { target := -pid, signal := SIGTERM }, none)
      else (some { target := -pid, signal := SIGTERM }, some e)

/-- Claim C7: for every launched child (stored pid not `-1`),
`terminate()` sends SIGTERM to the negated child pid (the whole process
group) and returns success exactly when delivery succeeds or fails with
`EPERM` or `ESRCH` (including terminating an already-exited child, where
`::kill` reports `ESRCH`); every other delivery failure is returned as an
error carrying that errno. -/
theorem claim_C7_terminate_best_effort (pid : Int) (killErrno : Option Nat)
    (hpid : pid ≠ -1) :
    (terminateChildProcess pid killErrno).1 =
      some { target := -pid, signal := SIGTERM } ∧
    ((terminateChildProcess pid killErrno).2 = none ↔
      (killErrno = none ∨ killErrno = some EPERM ∨ killErrno = some ESRCH)) ∧
    ∀ e, killErrno = some e → e ≠ EPERM → e ≠ ESRCH →
      (terminateChildProcess pid killErrno).2 = some e := by
  unfold terminateChildProcess
  rw [if_neg hpid]
  match killErrno with
  | none => simp
  | some e =>
    by_cases h1 : e = EPERM
    · simp [h1, EPERM, ESRCH]
    by_cases h2 : e = ESRCH
    · simp [h1, h2, EPERM, ESRCH]
    · simp [h1, h2]

theorem claim_C7_terminate_best_effort_witness :
    ((42 : Int) ≠ -1) ∧
    ((terminateChildProcess 42 (some ESRCH)).1 =
      some { target := -42, signal := SIGTERM } ∧
    ((terminateChildProcess 42 (some ESRCH)).2 = none ↔
      (some ESRCH = none ∨ some ESRCH = some EPERM ∨
        some ESRCH = some ESRCH)) ∧
    ∀ e, some ESRCH = some e → e ≠ EPERM → e ≠ ESRCH →
      (terminateChildProcess 42 (some ESRCH)).2 = some e) :=
  ⟨by decide, claim_C7_terminate_best_effort 42 (some ESRCH) (by decide)⟩

/-! ## Password redaction (`AbstractChildProcess::Impl::logProcessSpawn`)

Before logging the launch profile, `logProcessSpawn` locates the 12-char
pattern `"password":"` at `startPos1`, then loops: find the next `'"'`
from `startPos2` (initially `startPos1 + 12`); if found right at the
value start the password was empty (no redaction); otherwise walk
`lastSlashPos` back over backslashes from the quote and break when
`(startPos2 - lastSlashPos) % 2 == 0`; on break, splice `<redacted>`
between the value's opening quote and `startPos2`.  Note the loop re-runs
`find('"', startPos2)` with `startPos2` unchanged when it does not break.
Strings are embedded as `List Char` with explicit index arithmetic. -/

/-- Embeds `std::string::find(char, pos)`: the smallest index `≥ pos` holding
`c`, if any. -/
def findCharFrom (s : List Char) (c : Char) (pos : Nat) : Option Nat :=
  match (s.drop pos).findIdx? (fun x => x = c) with
  | none => none
  | some i => some (pos + i)

/-- Embeds `std::string::find(pattern)`: the smallest index where `pat` occurs
as a contiguous substring. -/
def findPattern (s pat : List Char) : Option Nat :=
  (List.range (s.length + 1)).find? (fun i => (s.drop i).take pat.length = pat)

/-- The password-field pattern `"password":"` (length 12,
`beforeLen`). -/
def pwdPat : List Char := ('"' :: "password".toList) ++ ['"', ':', '"']

/-- The backslash walk: `int lastSlashPos = p; while (lastSlashPos > lo)
if (s[lastSlashPos] == backslash) --lastSlashPos; else break;`. -/
def lastSlashWalk (s : List Char) (lo : Nat) : Nat → Nat
  | 0 => 0
  | p + 1 =>
    if lo < p + 1 then
      if s.getD (p + 1) ' ' = '\\' then lastSlashWalk s lo p else p + 1
    else p + 1

/-- Outcome of one iteration of the redaction scan loop. -/
inductive ScanStep where
  | breakEmpty
  | breakAt (pos : Nat)
  | continueAt (pos : Nat)
  | assertViolated
deriving DecidableEq, Repr

/-- One iteration of the scan loop at search position `startPos2`. -/
def scanStep (s : List Char) (startPos1 startPos2 : Nat) : ScanStep :=
  match findCharFrom s '"' startPos2 with
  | none => ScanStep.assertViolated
  | some q =>
    if q = startPos1 + 12 then ScanStep.breakEmpty
    else
      let lastSlashPos := lastSlashWalk s (startPos1 + 12) (q - 1)
      if (q - lastSlashPos) % 2 = 0 then ScanStep.breakAt q
      else ScanStep.continueAt q

/-- Result of the scan loop when it breaks. -/
inductive ScanDone where
  | empty
  | closing (q : Nat)
  | assertViolated
deriving DecidableEq, Repr

/-- Run the scan loop for at most `fuel` iterations; `none` means the
loop had not broken after `fuel` iterations. -/
def runScan (s : List Char) (startPos1 : Nat) :
    Nat → Nat → Option ScanDone
  | 0, _ => none
  | fuel + 1, pos =>
    match scanStep s startPos1 pos with
    | ScanStep.breakEmpty => some ScanDone.empty
    | ScanStep.breakAt q => some (ScanDone.closing q)
    | ScanStep.assertViolated => some ScanDone.assertViolated
    | ScanStep.continueAt q => runScan s startPos1 fuel q

/-- The redaction of `logProcessSpawn`, given `fuel` loop iterations:
`none` when the scan loop has not terminated within `fuel` iterations;
otherwise the logged profile text. -/
def redactPassword (fuel : Nat) (s : List Char) : Option (List Char) :=
  match findPattern s pwdPat with
  | none => some []
  | some startPos1 =>
    match runScan s startPos1 fuel (startPos1 + 12) with
    | none => none
    | some ScanDone.empty => some s
    | some (ScanDone.closing q) =>
      some (s.take (startPos1 + 12) ++ "<redacted>".toList ++ s.drop q)
    | some ScanDone.assertViolated => some []

/-- A launch profile fragment with the ordinary non-empty password
`abc` (no escaped quotes). -/
def pwdInputPlain : List Char := "\"password\":\"abc\",\"executablePath\":\"/bin/ls\"".toList

/-- A launch profile fragment whose password value contains an escaped
quote: the characters `a`, backslash, `"`, `b`. -/
def pwdInputEscaped : List Char := "\"password\":\"a\\\"b\",\"executablePath\":\"/bin/ls\"".toList

theorem runScan_plain_fixpoint (fuel : Nat) :
    runScan pwdInputPlain 0 fuel 15 = none := by
  induction fuel with
  | zero => rfl
  | succ n ih =>
    have hstep : scanStep pwdInputPlain 0 15 = ScanStep.continueAt 15 := by
      decide
    simp only [runScan, hstep]
    exact ih

theorem runScan_plain_from_start (fuel : Nat) :
    runScan pwdInputPlain 0 fuel 12 = none := by
  cases fuel with
  | zero => rfl
  | succ n =>
    have hstep : scanStep pwdInputPlain 0 12 = ScanStep.continueAt 15 := by
      decide
    simp only [runScan, hstep]
    exact runScan_plain_fixpoint n

/-- Claim C5 (refuted by the code): on the ordinary profile containing
`"password":"abc"`, the redaction scan never terminates — the first
unescaped quote gives `(startPos2 - lastSlashPos) % 2 = 1`, the loop does
not break, and `find('"', startPos2)` returns the same position forever,
so `redactPassword` yields no logged profile for any iteration bound.
On the profile whose password contains an escaped quote (`a\"b`), the
scan instead breaks at the escaped quote (index 14, preceded by a
backslash) rather than at the true closing quote (index 16), truncating
the redaction early. -/
theorem claim_C5_redaction_scan_diverges :
    (∀ fuel, redactPassword fuel pwdInputPlain = none) ∧
    scanStep pwdInputPlain 0 12 = ScanStep.continueAt 15 ∧
    scanStep pwdInputPlain 0 15 = ScanStep.continueAt 15 ∧
    scanStep pwdInputEscaped 0 12 = ScanStep.breakAt 14 ∧
    pwdInputEscaped.getD 13 '?' = '\\' ∧
    pwdInputEscaped.getD 14 '?' = '"' ∧
    pwdInputEscaped.getD 16 '?' = '"' ∧
    redactPassword 1 pwdInputEscaped =
      some ("\"password\":\"<redacted>\"b\",\"executablePath\":\"/bin/ls\"".toList) := by
  refine ⟨?_, by decide, by decide, by decide, by decide, by decide, by decide, by decide⟩
  intro fuel
  have hpat : findPattern pwdInputPlain pwdPat = some 0 := by decide
  have h12 : runScan pwdInputPlain 0 fuel (0 + 12) = none := by
    simpa using runScan_plain_from_start fuel
  simp only [redactPassword, hpat, h12]

/-! ## Request decoding (`Request::fromJson`)

`Request.cpp` is not among the analysed sources — only its declarations
and its tests (`api/tests/RequestTests.cpp`) are — so the decoder is
modelled from the spec (§4.1, §6) and kept consistent with the
expectations of the tests: type/id validation with precise error text,
dispatch on the message type, and independently validated tri-state
optional fields for the job-state request family. -/

/-- Modelled from the spec: a tri-state optional field — absent,
present-and-valid, or present-but-invalid. -/
inductive TriState (α : Type) where
  | absent
  | valid (v : α)
  | invalid
deriving DecidableEq, Repr

/-- Modelled from the spec: a resolved system user;
`realUser = "*"` denotes the all-users wildcard. -/
structure SysUser where
  isAllUsers : Bool
  name : String
deriving DecidableEq, Repr

/-- Modelled from the spec §6: the inbound message document, with each
protocol field optional and already shaped (type mismatches are out of
scope of the checked claims). -/
structure InboundDoc where
  messageType : Option Int
  requestId : Option Nat
  versionMajor : Option Nat
  versionMinor : Option Nat
  versionPatch : Option Nat
  realUser : Option String
  requestUsername : Option String
  jobId : Option String
  encodedJobId : Option String
  jobStartTime : Option String
  jobEndTime : Option String
  jobFields : Option (List String)
  jobStatuses : Option (List String)
  jobTags : Option (List String)
  cancelStream : Option Bool
deriving DecidableEq, Repr

/-- Modelled from the spec §1/§6: the external collaborators request
decoding consumes — identity resolution, date/time parsing, job-state
name parsing (dates and states as opaque tokens). -/
structure Externals where
  resolveUser : String → Option String
  parseDateTime : String → Option Nat
  parseJobState : String → Option Nat

/-- Decode failures of `Request::fromJson`. -/
inductive ReqErr where
  | missingField (name : String)
  | invalidMessageType (v : Int)
  | userNotFound (u : String)
deriving DecidableEq, Repr

/-- Modelled from the spec §4.1: the error text names the missing field,
or includes the offending numeric message type. -/
def errText : ReqErr → String
  | ReqErr.missingField n =>
    "Invalid request received from launcher. Missing field: " ++ n
  | ReqErr.invalidMessageType v =>
    "Invalid request received from launcher. Invalid message type: " ++ toString v
  | ReqErr.userNotFound u =>
    "Invalid request received from launcher. User not found: " ++ u

/-- Holds when `t` occurs as a contiguous substring of `s`. -/
def strContains (s t : String) : Prop := ∃ pre post, s = pre ++ t ++ post

/-- Modelled from the spec §3: the message types named by the spec, in
declaration order (the numeric values of further `Request::Type` members
do not affect the checked claims). -/
def highestMessageType : Int := 4

/-- The decoded `JobStateRequest` fields. -/
structure JobStateReq where
  user : SysUser
  requestUsername : String
  jobId : String
  encodedJobId : String
  startTime : TriState Nat
  endTime : TriState Nat
  fieldSet : Option (List String)
  statusSet : TriState (List Nat)
  tagSet : Option (List String)
deriving DecidableEq, Repr

/-- The decoded request variants (message types 0–4). -/
inductive Request where
  | heartbeat (id : Nat)
  | bootstrap (id : Nat) (major minor patch : Nat)
  | getClusterInfo (id : Nat) (user : SysUser) (requestUsername : String)
  | getJob (id : Nat) (req : JobStateReq)
  | getJobStatus (id : Nat) (jobId encodedJobId : String) (user : SysUser)
      (requestUsername : String) (cancel : Bool)
deriving DecidableEq, Repr

/-- Tri-state decoding of an optional date/time string: absent stays
absent, a parsable value is valid, an unparsable one is
attempted-but-invalid (without failing the enclosing request). -/
def parseTri (pdt : String → Option Nat) : Option String → TriState Nat
  | none => TriState.absent
  | some s =>
    match pdt s with
    | some v => TriState.valid v
    | none => TriState.invalid

/-- Tri-state decoding of the status-name array: any unknown state name
makes the whole set attempted-but-invalid. -/
def parseStatusSet (pst : String → Option Nat) :
    Option (List String) → TriState (List Nat)
  | none => TriState.absent
  | some names =>
    match names.mapM pst with
    | some l => TriState.valid l
    | none => TriState.invalid

/-- A parsed field-projection set always implicitly includes `id`. -/
def withIdField (fields : List String) : List String :=
  if fields.contains "id" then fields else "id" :: fields

/-- Resolve `realUser`: `"*"` is the all-users wildcard, anything else
goes through the identity resolver. -/
def resolveRealUser (ext : Externals) (s : String) : Option SysUser :=
  if s = "*" then some { isAllUsers := true, name := "*" }
  else
    match ext.resolveUser s with
    | some n => some { isAllUsers := false, name := n }
    | none => none

/-- Modelled from the spec §4.1: `Request::fromJson`.  Extract and range-
check `messageType`, extract `requestId`, dispatch on the type; the
job-state family decodes its optional fields independently as
tri-states.  `Request.cpp` is not among the analysed sources. -/
def requestFromJson (ext : Externals) (doc : InboundDoc) :
    Except ReqErr Request :=
  match doc.messageType with
  | none => Except.error (ReqErr.missingField "messageType")
  | some t =>
    if t < 0 ∨ highestMessageType < t then
      Except.error (ReqErr.invalidMessageType t)
    else
      match doc.requestId with
      | none => Except.error (ReqErr.missingField "requestId")
      | some rid =>
        if t = 0 then Except.ok (Request.heartbeat rid)
        else if t = 1 then
          match doc.versionMajor, doc.versionMinor, doc.versionPatch with
          | some a, some b, some c => Except.ok (Request.bootstrap rid a b c)
          | _, _, _ => Except.error (ReqErr.missingField "version")
        else
          match doc.realUser with
          | none => Except.error (ReqErr.missingField "realUser")
          | some u =>
            match resolveRealUser ext u with
            | none => Except.error (ReqErr.userNotFound u)
            | some su =>
              if t = 2 then
                Except.ok
                  (Request.getClusterInfo rid su (doc.requestUsername.getD ""))
              else
                match doc.jobId with
                | none => Except.error (ReqErr.missingField "jobId")
                | some jid =>
                  if t = 3 then
                    Except.ok (Request.getJob rid
                      { user := su
                        requestUsername := doc.requestUsername.getD ""
                        jobId := jid
                        encodedJobId := doc.encodedJobId.getD ""
                        startTime := parseTri ext.parseDateTime doc.jobStartTime
                        endTime := parseTri ext.parseDateTime doc.jobEndTime
                        fieldSet := doc.jobFields.map withIdField
                        statusSet := parseStatusSet ext.parseJobState doc.jobStatuses
                        tagSet := doc.jobTags })
                  else
                    Except.ok (Request.getJobStatus rid jid
                      (doc.encodedJobId.getD "") su (doc.requestUsername.getD "")
                      (doc.cancelStream.getD false))

/-- The dereference of a tri-state date field
(`JobStateRequest::getEndTime`/`getStartTime` semantics): an error
exactly when the field was attempted but invalid. -/
def triAccess : TriState Nat → Except Unit (Option Nat)
  | TriState.absent => Except.ok none
  | TriState.valid v => Except.ok (some v)
  | TriState.invalid => Except.error ()

def JobStateReq.getEndTime (r : JobStateReq) : Except Unit (Option Nat) :=
  triAccess r.endTime

def JobStateReq.getStartTime (r : JobStateReq) : Except Unit (Option Nat) :=
  triAccess r.startTime

/-- Claim C8: a GET_JOB document whose `jobEndTime` is present but
unparsable decodes successfully overall; the resulting job-state
request's end time is the attempted-but-invalid tri-state (an error
surfaced only at `getEndTime`), while `getStartTime` and the sibling
fields are populated independently from their own document fields. -/
theorem claim_C8_invalid_end_time_partial_decode (ext : Externals)
    (doc : InboundDoc) (rid : Nat) (u : String) (su : SysUser)
    (jid es : String)
    (ht : doc.messageType = some 3) (hr : doc.requestId = some rid)
    (hu : doc.realUser = some u) (hsu : resolveRealUser ext u = some su)
    (hj : doc.jobId = some jid) (he : doc.jobEndTime = some es)
    (hbad : ext.parseDateTime es = none) :
    requestFromJson ext doc = Except.ok (Request.getJob rid
      { user := su
        requestUsername := doc.requestUsername.getD ""
        jobId := jid
        encodedJobId := doc.encodedJobId.getD ""
        startTime := parseTri ext.parseDateTime doc.jobStartTime
        endTime := TriState.invalid
        fieldSet := doc.jobFields.map withIdField
        statusSet := parseStatusSet ext.parseJobState doc.jobStatuses
        tagSet := doc.jobTags }) ∧
    JobStateReq.getEndTime
      { user := su
        requestUsername := doc.requestUsername.getD ""
        jobId := jid
        encodedJobId := doc.encodedJobId.getD ""
        startTime := parseTri ext.parseDateTime doc.jobStartTime
        endTime := TriState.invalid
        fieldSet := doc.jobFields.map withIdField
        statusSet := parseStatusSet ext.parseJobState doc.jobStatuses
        tagSet := doc.jobTags } = Except.error () ∧
    JobStateReq.getStartTime
      { user := su
        requestUsername := doc.requestUsername.getD ""
        jobId := jid
        encodedJobId := doc.encodedJobId.getD ""
        startTime := parseTri ext.parseDateTime doc.jobStartTime
        endTime := TriState.invalid
        fieldSet := doc.jobFields.map withIdField
        statusSet := parseStatusSet ext.parseJobState doc.jobStatuses
        tagSet := doc.jobTags } =
      triAccess (parseTri ext.parseDateTime doc.jobStartTime) := by
  refine ⟨?_, rfl, rfl⟩
  simp [requestFromJson, ht, hr, hu, hsu, hj, he, hbad, highestMessageType,
    parseTri]

/-- The concrete external collaborators used by the C8 witness: one
known user, no parsable dates, no known job states. -/
def extW : Externals :=
  { resolveUser := fun s => if s = "user2" then some "user2" else none
    parseDateTime := fun _ => none
    parseJobState := fun _ => none }

/-- The concrete GET_JOB document of the C8 witness, mirroring the
"Invalid date/time" section of `RequestTests.cpp`. -/
def docW : InboundDoc :=
  { messageType := some 3
    requestId := some 91
    versionMajor := none
    versionMinor := none
    versionPatch := none
    realUser := some "user2"
    requestUsername := some "user2"
    jobId := some "444"
    encodedJobId := some "Y2x1c3Rlci0xNDIK"
    jobStartTime := none
    jobEndTime := some "not a date time"
    jobFields := none
    jobStatuses := none
    jobTags := none
    cancelStream := none }

theorem claim_C8_invalid_end_time_partial_decode_witness :
    docW.messageType = some 3 ∧ extW.parseDateTime "not a date time" = none ∧
    (requestFromJson extW docW = Except.ok (Request.getJob 91
      { user := { isAllUsers := false, name := "user2" }
        requestUsername := docW.requestUsername.getD ""
        jobId := "444"
        encodedJobId := docW.encodedJobId.getD ""
        startTime := parseTri extW.parseDateTime docW.jobStartTime
        endTime := TriState.invalid
        fieldSet := docW.jobFields.map withIdField
        statusSet := parseStatusSet extW.parseJobState docW.jobStatuses
        tagSet := docW.jobTags }) ∧
    JobStateReq.getEndTime
      { user := { isAllUsers := false, name := "user2" }
        requestUsername := docW.requestUsername.getD ""
        jobId := "444"
        encodedJobId := docW.encodedJobId.getD ""
        startTime := parseTri extW.parseDateTime docW.jobStartTime
        endTime := TriState.invalid
        fieldSet := docW.jobFields.map withIdField
        statusSet := parseStatusSet extW.parseJobState docW.jobStatuses
        tagSet := docW.jobTags } = Except.error () ∧
    JobStateReq.getStartTime
      { user := { isAllUsers := false, name := "user2" }
        requestUsername := docW.requestUsername.getD ""
        jobId := "444"
        encodedJobId := docW.encodedJobId.getD ""
        startTime := parseTri extW.parseDateTime docW.jobStartTime
        endTime := TriState.invalid
        fieldSet := docW.jobFields.map withIdField
        statusSet := parseStatusSet extW.parseJobState docW.jobStatuses
        tagSet := docW.jobTags } =
      triAccess (parseTri extW.parseDateTime docW.jobStartTime)) :=
  ⟨rfl, rfl,
   claim_C8_invalid_end_time_partial_decode extW docW 91 "user2"
     { isAllUsers := false, name := "user2" } "444" "not a date time"
     rfl rfl rfl (by simp [resolveRealUser, extW]) rfl rfl rfl⟩

/-- Claim C9: a document with no `messageType` fails to decode with an
error whose text contains the field name `messageType`; a document whose
`messageType` is outside `[0, highestMessageType]` fails to decode with
an error whose text contains the offending numeric value. -/
theorem claim_C9_message_type_validation (ext : Externals)
    (doc : InboundDoc) :
    (doc.messageType = none →
      requestFromJson ext doc =
        Except.error (ReqErr.missingField "messageType") ∧
      strContains (errText (ReqErr.missingField "messageType"))
        "messageType") ∧
    (∀ v, doc.messageType = some v → (v < 0 ∨ highestMessageType < v) →
      requestFromJson ext doc =
        Except.error (ReqErr.invalidMessageType v) ∧
      strContains (errText (ReqErr.invalidMessageType v)) (toString v)) := by
  constructor
  · intro h
    refine ⟨by simp [requestFromJson, h], ?_⟩
    exact ⟨"Invalid request received from launcher. Missing field: ", "",
      by simp [errText]⟩
  · intro v hv hrange
    refine ⟨by simp [requestFromJson, hv, hrange], ?_⟩
    exact ⟨"Invalid request received from launcher. Invalid message type: ", "",
      by simp [errText]⟩

/-- The document of the C9 witness with no message type. -/
def docNoType : InboundDoc :=
  { messageType := none
    requestId := some 6
    versionMajor := none
    versionMinor := none
    versionPatch := none
    realUser := none
    requestUsername := none
    jobId := none
    encodedJobId := none
    jobStartTime := none
    jobEndTime := none
    jobFields := none
    jobStatuses := none
    jobTags := none
    cancelStream := none }

/-- The document of the C9 witness with message type `-4`, mirroring the
"negative message type" test. -/
def docNegType : InboundDoc :=
  { messageType := some (-4)
    requestId := some 6
    versionMajor := none
    versionMinor := none
    versionPatch := none
    realUser := none
    requestUsername := none
    jobId := none
    encodedJobId := none
    jobStartTime := none
    jobEndTime := none
    jobFields := none
    jobStatuses := none
    jobTags := none
    cancelStream := none }

theorem claim_C9_message_type_validation_witness :
    docNoType.messageType = none ∧
    ((-4 : Int) < 0 ∨ highestMessageType < -4) ∧
    (requestFromJson extW docNoType =
        Except.error (ReqErr.missingField "messageType") ∧
      strContains (errText (ReqErr.missingField "messageType"))
        "messageType") ∧
    (requestFromJson extW docNegType =
        Except.error (ReqErr.invalidMessageType (-4)) ∧
      strContains (errText (ReqErr.invalidMessageType (-4)))
        (toString (-4 : Int))) :=
  ⟨rfl, by decide,
   (claim_C9_message_type_validation extW docNoType).1 rfl,
   (claim_C9_message_type_validation extW docNegType).2 (-4) rfl
     (by decide)⟩

end RSdk
